import Mathlib

/-!
Verification of the flash-attempt retry/escalation policy of
`flash_tool.py` (VSD-WCH-Utility).

The orchestration core (`flash_device` and its collaborators
`run_command`, `check_firmware_file`, `detect_chip_type`,
`reset_device`) is shallowly embedded as a deterministic interpreter
producing a trace of observable effects (filesystem validation checks,
external subprocess invocations, sleeps).  All nondeterminism of the
outside world (filesystem answers, subprocess exit status, the stdout
of the `wlink status -v` probe, the interactive confirmation in the
chip-mismatch branch) is captured in an environment `Env`.

Modelling notes, mirrored from the source:
* `run_command` (flash_tool.py:78) receives a whitespace-joined command
  string and splits it before calling `subprocess.run(cmd, shell=False)`;
  commands are embedded at the token-list level (arguments are assumed
  whitespace-free, which holds for all chip ids and option tokens).
* `detect_chip_type` (flash_tool.py:365) and the erase/flash/reset calls
  are the only external invocations inside a flash session; the status
  probe is run as a single string with `shell=True`
  (`subprocess.run("wlink status -v", shell=True, ...)`), which the
  embedding records as a `Invocation.shellStr` event.
* Pure terminal UI (rich progress-bar animations with their fractional
  sleeps, console prints, the ANSI-cleanup of stdout in `run_command`)
  is not modelled; the explicit `time.sleep(n)` calls of the
  orchestration logic are modelled as `Event.sleep n`.
* The interactive acquisition of a missing firmware path
  (flash_tool.py:444, `get_firmware_path`) is out-of-scope UI; the
  embedding covers sessions in which the caller supplies the firmware
  path, as `main` does.
* `wlink_options` is embedded as a total record with both keys
  (`erase_method`, `speed`), matching the dictionaries produced by
  `select_wlink_options` for the sessions modelled here.
-/

/-- Connection speed tokens used by the tool (`'low' | 'medium' | 'high'`). -/
inductive Speed
  | low
  | medium
  | high
deriving DecidableEq, Repr, BEq

/-- String form of a speed, as interpolated into the wlink command. -/
def speedStr : Speed → String
  | .low => "low"
  | .medium => "medium"
  | .high => "high"

/-- Erase-method tokens (`'default' | 'power-off' | 'pin-rst'`). -/
inductive EraseMethod
  | default
  | powerOff
  | pinRst
deriving DecidableEq, Repr, BEq

/-- String form of an erase method, as used in the configuration dicts. -/
def eraseMethodStr : EraseMethod → String
  | .default => "default"
  | .powerOff => "power-off"
  | .pinRst => "pin-rst"

/-- The `wlink_options` dictionary `{'erase_method': ..., 'speed': ...}`. -/
structure WlinkOptions where
  erase_method : EraseMethod
  speed : Speed
deriving DecidableEq, Repr

/-- One external subprocess invocation: either a discrete token list with
`shell=False` (as in `run_command` and `reset_device`) or a raw command
string handed to the shell with `shell=True` (as in `detect_chip_type`). -/
inductive Invocation
  | tokens (cmd : List String)
  | shellStr (cmd : String)
deriving DecidableEq, Repr

/-- Observable events of a flash session. -/
inductive Event
  | checkExists (path : String) (result : Bool)
  | checkIsFile (path : String) (result : Bool)
  | checkReadable (path : String) (result : Bool)
  | invoke (inv : Invocation) (ok : Bool)
  | sleep (seconds : Nat)
deriving DecidableEq, Repr

/-- Error outcomes of the session body (each corresponds to a
`FirmwareUpdateError` raise site in the source). -/
inductive Err
  | firmwareNotFound
  | notAFile
  | notReadable
  | detectFailed
  | chipMismatch
  | eraseFailed
  | resetFailed
  | flashExhausted
deriving DecidableEq, Repr

/-- The configuration dict returned by `detect_chip_type`
(`{'erase_chip': k, 'flash_chip': k}`). -/
structure ChipInfo where
  erase_chip : String
  flash_chip : String
deriving DecidableEq, Repr

/-- The outside world: filesystem answers, `os.path.abspath`, the stdout
of the i-th `wlink status -v` probe, the exit status (success) of the
n-th checked subprocess invocation, and the interactive confirmation of
the chip-mismatch branch. -/
structure Env where
  pathExists : String → Bool
  pathIsFile : String → Bool
  pathReadable : String → Bool
  abspath : String → String
  detectOutput : Nat → String
  run : Nat → List String → Bool
  confirmDetectedMismatch : Bool

/-- Interpreter state: how many checked subprocess invocations and how
many detection probes have happened so far. -/
structure Counters where
  runs : Nat
  detects : Nat
deriving DecidableEq, Repr

/-- Trace/state/error interpreter monad for the session. -/
def FM (α : Type) : Type := Counters → List Event × Counters × Except Err α

namespace FM

def pure (a : α) : FM α := fun s => ([], s, .ok a)

def bind (m : FM α) (f : α → FM β) : FM β := fun s =>
  match m s with
  | (es, s1, .ok a) =>
    match f a s1 with
    | (es2, s2, r) => (es ++ es2, s2, r)
  | (es, s1, .error e) => (es, s1, .error e)

end FM

instance : Monad FM where
  pure := FM.pure
  bind := FM.bind

/-- Raise a `FirmwareUpdateError`. -/
def throwE (e : Err) : FM α := fun s => ([], s, .error e)

/-- Record an observable event. -/
def emit (ev : Event) : FM Unit := fun s => ([ev], s, .ok ())

/-- `run_command` (flash_tool.py:78): the command string is split into
tokens and run with `shell=False, check=True`; `True` is returned iff the
subprocess exits successfully (all error handlers return `False`). -/
def run_command (env : Env) (cmd : List String) : FM Bool := fun s =>
  ([.invoke (.tokens cmd) (env.run s.runs cmd)],
   { s with runs := s.runs + 1 },
   .ok (env.run s.runs cmd))

/-- The `subprocess.run("wlink status -v", shell=True, ...)` probe of
`detect_chip_type` (flash_tool.py:368): the command is a raw string handed
to the shell; its exit status is never consulted (no `check=True`), so the
event's `ok` flag is recorded as `true`, and the probe yields its stdout. -/
def status_probe (env : Env) : FM String := fun s =>
  ([.invoke (.shellStr "wlink status -v") true],
   { s with detects := s.detects + 1 },
   .ok (env.detectOutput s.detects))

/-- Whether `pat` occurs as a contiguous substring of `s` (Python `in`). -/
def strContains (pat s : String) : Bool :=
  go pat.toList s.toList
where
  go (p : List Char) : List Char → Bool
    | [] => p.isEmpty
    | c :: cs => p.isPrefixOf (c :: cs) || go p cs

/-- Keys of the `chip_configs` dict of `detect_chip_type`
(flash_tool.py:377), in insertion order. -/
def chip_configs : List String :=
  ["CH32V30X", "CH32V103", "CH57X", "CH56X", "CH32V20X", "CH582",
   "CH32V003", "CH8571", "CH59X", "CH643", "CH32X035", "CH32L103",
   "CH641", "CH585", "CH564", "CH32V007", "CH645", "CH32V317"]

/-- The pure pattern match of `detect_chip_type` over the probe output:
first `chip_configs` key occurring in the output, with the
`WCH-LinkE-CH32V305` fallback mapping to `CH32V30X`. -/
def chipMatch (output : String) : Option ChipInfo :=
  match chip_configs.find? (fun k => strContains k output) with
  | some k => some ⟨k, k⟩
  | none =>
    if strContains "WCH-LinkE-CH32V305" output then some ⟨"CH32V30X", "CH32V30X"⟩
    else none

/-- `detect_chip_type` (flash_tool.py:365): probe the device status and
pattern-match known chip identifiers; raises when nothing matches. -/
def detect_chip_type (env : Env) : FM ChipInfo := do
  let output ← status_probe env
  match chipMatch output with
  | some ci => FM.pure ci
  | none => throwE .detectFailed

/-- `check_firmware_file` (flash_tool.py:148): existence, regular-file and
readability checks, each raising on failure.  No extension check is
performed here. -/
def check_firmware_file (env : Env) (p : String) : FM Unit := do
  let e := env.pathExists p
  emit (.checkExists p e)
  if !e then throwE .firmwareNotFound
  else do
    let f := env.pathIsFile p
    emit (.checkIsFile p f)
    if !f then throwE .notAFile
    else do
      let r := env.pathReadable p
      emit (.checkReadable p r)
      if !r then throwE .notReadable
      else FM.pure ()

/-- `reset_device` (flash_tool.py:427): runs `["wlink", "reset"]` as a
token list (`check=True`); returns `False` (after a warning print) when
the subprocess fails, `True` otherwise.  The stabilisation progress bar is
UI and not modelled. -/
def reset_device (env : Env) : FM Bool :=
  run_command env ["wlink", "reset"]

/-- `max_retries = 3` (flash_tool.py:491, flash_tool.py:572). -/
def max_retries : Nat := 3

/-- The expected chip from the user's declared device type
(flash_tool.py:460): `"CH32V003" in device_type` / elif
`"CH32V30X" in device_type`. -/
def expected_chip_of (device_type : String) : Option String :=
  if strContains "CH32V003" device_type then some "CH32V003"
  else if strContains "CH32V30X" device_type then some "CH32V30X"
  else none

/-- The `actual_chip` scan of flash_tool.py:453–457.  The source iterates
`chip_info.keys()` — the dictionary KEYS, i.e. the strings
`"erase_chip"` and `"flash_chip"` — and tests each against
`["CH32V003", "CH32V30X"]`, so the scan never finds anything. -/
def actual_chip_scan (chip_info : ChipInfo) : Option String :=
  (chip_info_keys chip_info).find? (fun k => k == "CH32V003" || k == "CH32V30X")
where
  /-- `chip_info.keys()`: the insertion-ordered keys of the dict
  `{'erase_chip': ..., 'flash_chip': ...}`. -/
  chip_info_keys (_ : ChipInfo) : List String := ["erase_chip", "flash_chip"]

/-- The chip-mismatch confirmation block of flash_tool.py:466–477:
`if expected_chip and actual_chip and expected_chip != actual_chip`, ask
the user; declining raises, accepting rewrites `device_type` to match the
detected chip. -/
def resolve_device_type (env : Env) (chip_info : ChipInfo)
    (device_type : String) : FM String :=
  let expected := expected_chip_of device_type
  let actual := actual_chip_scan chip_info
  if expected.isSome && actual.isSome && (expected != actual) then
    if !env.confirmDetectedMismatch then throwE .chipMismatch
    else FM.pure (match actual with
      | some "CH32V003" => "VSD Squadran Mini (CH32V003)"
      | some "CH32V30X" => "VSD Squadran Mini (CH32V30X)"
      | _ => device_type)
  else FM.pure device_type

/-- The erase command of the VSD branch (flash_tool.py:503):
`wlink erase --method power-off --chip {chip_type} -v`, split on
whitespace by `run_command`. -/
def erase_cmd_vsd (chip_type : String) : List String :=
  ["wlink", "erase", "--method", "power-off", "--chip", chip_type, "-v"]

/-- The erase command of the non-VSD branch (flash_tool.py:585):
`wlink erase --method default --chip {erase_chip}`. -/
def erase_cmd_other (erase_chip : String) : List String :=
  ["wlink", "erase", "--method", "default", "--chip", erase_chip]

/-- The flash command of the VSD branch for chip `CH32V003`
(flash_tool.py:540): `--speed low --verify`, on the absolute path. -/
def flash_cmd_verify (chip_type abs_path : String) : List String :=
  ["wlink", "flash", "--chip", chip_type, "--speed", "low", "--verify", abs_path]

/-- The flash command of the VSD branch for other chips
(flash_tool.py:542), on the absolute path. -/
def flash_cmd_vsd (chip_type : String) (speed : Speed) (abs_path : String) :
    List String :=
  ["wlink", "flash", "--chip", chip_type, "--speed", speedStr speed, abs_path]

/-- The flash command of the non-VSD branch (flash_tool.py:648), on the
path as supplied. -/
def flash_cmd_other (flash_chip : String) (speed : Speed) (path : String) :
    List String :=
  ["wlink", "flash", "--chip", flash_chip, "--speed", speedStr speed, path]

/-- The erase retry loop (flash_tool.py:492–510 and 573–592), recursing on
the remaining attempts of `range(max_retries)`: break on success, sleep 2
seconds before a retry, raise `"Chip erase failed after multiple
attempts"` when the last attempt fails. -/
def erase_attempt_loop (env : Env) (cmd : List String) : List Nat → FM Unit
  | [] => FM.pure ()
  | _attempt :: rest => do
    let ok ← run_command env cmd
    if ok then FM.pure ()
    else if rest ≠ [] then do
      emit (.sleep 2)
      erase_attempt_loop env cmd rest
    else throwE .eraseFailed

/-- One speed's flash attempts in the VSD branch (flash_tool.py:521–556).
Each attempt recomputes the absolute firmware path and re-checks its
existence (flash_tool.py:534–536), builds the speed-`low`-plus-`--verify`
command when `chip_type == "CH32V003"` (the plain speed command
otherwise), and on success returns `(True, wlink_options)` out of
`flash_device`.  Before a same-speed retry the device is reset
(result ignored) and the loop sleeps 2 s; after the last attempt the same
happens only when a next speed remains and the chip is not `CH32V003`.
`none` means the loop fell through to the next speed. -/
def vsd_flash_attempts (env : Env) (chip_type firmware_path : String)
    (wlink_options : WlinkOptions) (speed : Speed) :
    List Nat → FM (Option (Bool × WlinkOptions))
  | [] => FM.pure none
  | _attempt :: rest => do
    let firmware_abs_path := env.abspath firmware_path
    let ex := env.pathExists firmware_abs_path
    emit (.checkExists firmware_abs_path ex)
    if !ex then throwE .firmwareNotFound
    else do
      let flash_cmd :=
        if chip_type = "CH32V003" then flash_cmd_verify chip_type firmware_abs_path
        else flash_cmd_vsd chip_type speed firmware_abs_path
      let ok ← run_command env flash_cmd
      if ok then FM.pure (some (true, wlink_options))
      else if rest ≠ [] then do
        let _ ← reset_device env
        emit (.sleep 2)
        vsd_flash_attempts env chip_type firmware_path wlink_options speed rest
      else if speed ≠ .high && chip_type ≠ "CH32V003" then do
        let _ ← reset_device env
        emit (.sleep 2)
        FM.pure none
      else FM.pure none

/-- The VSD branch's speed loop (flash_tool.py:520): iterate
`speeds[0:] = ['low', 'medium', 'high']`; falling off the loop raises
`"Firmware flash failed after trying all speeds"` (flash_tool.py:558). -/
def vsd_speed_loop (env : Env) (chip_type firmware_path : String)
    (wlink_options : WlinkOptions) : List Speed → FM (Bool × WlinkOptions)
  | [] => throwE .flashExhausted
  | speed :: rest => do
    let r ← vsd_flash_attempts env chip_type firmware_path wlink_options speed
      (List.range max_retries)
    match r with
    | some result => FM.pure result
    | none => vsd_speed_loop env chip_type firmware_path wlink_options rest

/-- One speed's flash attempts in the non-VSD branch
(flash_tool.py:635–660): retry with a 10 s wait, and after the last
attempt sleep 5 s when a lower speed remains. -/
def other_flash_attempts (env : Env) (flash_chip firmware_path : String)
    (wlink_options : WlinkOptions) (speed : Speed) :
    List Nat → FM (Option (Bool × WlinkOptions))
  | [] => FM.pure none
  | _attempt :: rest => do
    let ok ← run_command env (flash_cmd_other flash_chip speed firmware_path)
    if ok then FM.pure (some (true, wlink_options))
    else if rest ≠ [] then do
      emit (.sleep 10)
      other_flash_attempts env flash_chip firmware_path wlink_options speed rest
    else if speed ≠ .low then do
      emit (.sleep 5)
      FM.pure none
    else FM.pure none

/-- The non-VSD branch's speed loop (flash_tool.py:602–662): iterate the
remaining speeds; before each speed's attempts the user is told to power
cycle (progress-bar waits, UI) and the code sleeps 5 s
(flash_tool.py:633); falling off the loop raises
`"Firmware flash failed after trying all speeds"`. -/
def other_speed_loop (env : Env) (flash_chip firmware_path : String)
    (wlink_options : WlinkOptions) : List Speed → FM (Bool × WlinkOptions)
  | [] => throwE .flashExhausted
  | speed :: rest => do
    emit (.sleep 5)
    let r ← other_flash_attempts env flash_chip firmware_path wlink_options speed
      (List.range max_retries)
    match r with
    | some result => FM.pure result
    | none => other_speed_loop env flash_chip firmware_path wlink_options rest

/-- Position of the configured starting speed in
`speeds = ['high', 'medium', 'low']` (flash_tool.py:600,
`speeds.index(wlink_options['speed'])`). -/
def speed_index_other : Speed → Nat
  | .high => 0
  | .medium => 1
  | .low => 2

/-- The body of `flash_device` (flash_tool.py:444–662), before the
`except` handlers: validate the supplied firmware path, detect the chip,
run the (dead) mismatch resolution, then either the VSD branch
(hard-coded power-off erase, mandatory post-erase reset, speed loop over
`['low', 'medium', 'high']` with `chip_type` always `"CH32V003"` since the
`actual_chip` scan is empty) or the non-VSD branch (hard-coded default
erase, 5 s settle sleep, speed loop over `['high', 'medium', 'low']`
from the configured starting speed). -/
def flash_device_body (env : Env) (firmware_path : String)
    (wlink_options : WlinkOptions) (device_type : String) :
    FM (Bool × WlinkOptions) := do
  let e0 := env.pathExists firmware_path
  emit (.checkExists firmware_path e0)
  if !e0 then throwE .firmwareNotFound
  else do
    check_firmware_file env firmware_path
    let chip_info ← detect_chip_type env
    let device_type ← resolve_device_type env chip_info device_type
    if strContains "VSD Squadran Mini" device_type then do
      let chip_type := (actual_chip_scan chip_info).getD "CH32V003"
      erase_attempt_loop env (erase_cmd_vsd chip_type) (List.range max_retries)
      let resetOk ← reset_device env
      if !resetOk then throwE .resetFailed
      else
        vsd_speed_loop env chip_type firmware_path wlink_options
          [.low, .medium, .high]
    else do
      let chip_types ← detect_chip_type env
      erase_attempt_loop env (erase_cmd_other chip_types.erase_chip)
        (List.range max_retries)
      emit (.sleep 5)
      other_speed_loop env chip_types.flash_chip firmware_path wlink_options
        (([Speed.high, .medium, .low]).drop (speed_index_other wlink_options.speed))

/-- `flash_device` (flash_tool.py:442–669): the body wrapped by the
`except FirmwareUpdateError` / `except Exception` handlers, which convert
every raised error into the result `(False, wlink_options)`.  The first
component of the returned pair is the session trace, the second the
`(success, options)` pair returned to the caller. -/
def flash_device (env : Env) (firmware_path : String)
    (wlink_options : WlinkOptions) (device_type : String) :
    List Event × (Bool × WlinkOptions) :=
  match flash_device_body env firmware_path wlink_options device_type ⟨0, 0⟩ with
  | (es, _, .ok r) => (es, r)
  | (es, _, .error _) => (es, (false, wlink_options))

/-- The raw body outcome (trace and `Except` result) of a session,
before the exception handlers. -/
def flash_body_run (env : Env) (firmware_path : String)
    (wlink_options : WlinkOptions) (device_type : String) :
    List Event × Counters × Except Err (Bool × WlinkOptions) :=
  flash_device_body env firmware_path wlink_options device_type ⟨0, 0⟩

/-- Whether an event is an external subprocess invocation. -/
def Event.isInvoke : Event → Bool
  | .invoke _ _ => true
  | _ => false

/-- Whether an event is a filesystem validation check
(existence / regular-file / readability). -/
def Event.isCheck : Event → Bool
  | .checkExists _ _ => true
  | .checkIsFile _ _ => true
  | .checkReadable _ _ => true
  | _ => false

/-- Whether an event is a `wlink flash ...` invocation. -/
def Event.isFlashInvoke : Event → Bool
  | .invoke (.tokens ("wlink" :: "flash" :: _)) _ => true
  | _ => false

/-- Whether an event is a `wlink erase ...` invocation. -/
def Event.isEraseInvoke : Event → Bool
  | .invoke (.tokens ("wlink" :: "erase" :: _)) _ => true
  | _ => false

/-- Whether an event is a `wlink reset` invocation. -/
def Event.isResetInvoke : Event → Bool
  | .invoke (.tokens ["wlink", "reset"]) _ => true
  | _ => false

/-- Whether an event is a 2-second sleep. -/
def Event.isSleep2 : Event → Bool
  | .sleep 2 => true
  | _ => false

/-- The `--method` token of an erase invocation, `none` for anything else. -/
def Event.eraseMethodToken : Event → Option String
  | .invoke (.tokens ("wlink" :: "erase" :: "--method" :: m :: _)) _ => some m
  | _ => none

/-- The flash invocations of a trace. -/
def flashInvs (t : List Event) : List Event := t.filter Event.isFlashInvoke

/-- The erase invocations of a trace. -/
def eraseInvs (t : List Event) : List Event := t.filter Event.isEraseInvoke

/-- The subprocess invocations of a trace. -/
def invs (t : List Event) : List Event := t.filter Event.isInvoke

/-- Validation-check events occurring at or after the first subprocess
invocation of the trace: non-empty exactly when some validation is
(re-)performed after external attempts have begun. -/
def checksAfterFirstInvoke (t : List Event) : List Event :=
  (t.dropWhile (fun e => !e.isInvoke)).filter Event.isCheck

/-- A benign outside world: all filesystem checks pass, every subprocess
succeeds, the device always reports a `CH32V003`. -/
def baseEnv : Env where
  pathExists := fun _ => true
  pathIsFile := fun _ => true
  pathReadable := fun _ => true
  abspath := fun p => "/abs/" ++ p
  detectOutput := fun _ => "CH32V003"
  run := fun _ _ => true
  confirmDetectedMismatch := true

/-- World in which every flash invocation fails, erase succeeds, and only
the first reset (the post-erase one, the second checked subprocess) comes
back successful — later (pre-retry) resets all fail. -/
def envFlashAlwaysFails : Env :=
  { baseEnv with
    run := fun n c =>
      if c.getD 1 "" == "erase" then true
      else if c.getD 1 "" == "flash" then false
      else n == 1 }

/-- World for the non-VSD branch in which the detected chip is
`CH32V30X`, erase and reset succeed, and a flash invocation succeeds
exactly when its `--speed` token is `low`. -/
def envLowSpeedOnly : Env :=
  { baseEnv with
    detectOutput := fun _ => "CH32V30X"
    run := fun _ c =>
      if c.getD 1 "" == "flash" then c.getD 5 "" == "low" else true }

/-- World in which every erase invocation fails and everything else
succeeds. -/
def envEraseAlwaysFails : Env :=
  { baseEnv with
    run := fun _ c => c.getD 1 "" != "erase" }

/-- World in which erase succeeds but every reset fails (and flash
invocations fail too). -/
def envResetFails : Env :=
  { baseEnv with
    run := fun _ c => c.getD 1 "" == "erase" }

/-- World in which the firmware path does not exist. -/
def envNoFile : Env :=
  { baseEnv with pathExists := fun _ => false }

/-- Sample firmware path. -/
def fwPath : String := "fw.bin"

/-- The declared VSD CH32V003 device type string. -/
def vsdDevice : String := "VSD Squadran Mini (CH32V003)"

/-- The declared non-VSD device type string. -/
def otherDevice : String := "Other WCH-Link devices"

/-- Options with starting speed `high` and erase method `power-off`. -/
def optsHighPowerOff : WlinkOptions := ⟨.powerOff, .high⟩

/-- Options with starting speed `high` and erase method `pin-rst` (a
selection `select_wlink_options` offers for non-VSD devices). -/
def optsHighPinRst : WlinkOptions := ⟨.pinRst, .high⟩

/-! Evaluation lemmas for the interpreter. -/

/-- The `actual_chip` scan always comes back empty: the dict keys
`"erase_chip"` / `"flash_chip"` are never in `["CH32V003", "CH32V30X"]`. -/
@[simp] theorem actual_chip_scan_eq_none (ci : ChipInfo) :
    actual_chip_scan ci = none := rfl

@[simp] theorem FM.bind_def (m : FM α) (f : α → FM β) : m >>= f = FM.bind m f := rfl

@[simp] theorem FM.pure_def (a : α) : (Pure.pure a : FM α) = FM.pure a := rfl

@[simp] theorem FM.pure_apply (a : α) (s : Counters) :
    FM.pure a s = ([], s, .ok a) := rfl

@[simp] theorem throwE_apply (e : Err) (s : Counters) :
    (throwE e : FM α) s = ([], s, .error e) := rfl

@[simp] theorem emit_apply (ev : Event) (s : Counters) :
    emit ev s = ([ev], s, .ok ()) := rfl

@[simp] theorem run_command_apply (env : Env) (cmd : List String) (s : Counters) :
    run_command env cmd s =
      ([.invoke (.tokens cmd) (env.run s.runs cmd)],
       { s with runs := s.runs + 1 }, .ok (env.run s.runs cmd)) := rfl

@[simp] theorem status_probe_apply (env : Env) (s : Counters) :
    status_probe env s =
      ([.invoke (.shellStr "wlink status -v") true],
       { s with detects := s.detects + 1 }, .ok (env.detectOutput s.detects)) := rfl

@[simp] theorem FM.bind_apply (m : FM α) (f : α → FM β) (s : Counters) :
    FM.bind m f s = (match m s with
      | (es, s1, .ok a) =>
        (match f a s1 with
         | (es2, s2, r) => (es ++ es2, s2, r))
      | (es, s1, .error e) => (es, s1, .error e)) := rfl

@[simp] theorem range_three : List.range 3 = [0, 1, 2] := rfl

/-- The mismatch-resolution step never changes the device type: the
`actual_chip` scan is empty (it looks at the dict keys), so the guard
`expected_chip and actual_chip and expected_chip != actual_chip` is
always false. -/
@[simp] theorem resolve_device_type_eval (env : Env) (ci : ChipInfo)
    (d : String) (s : Counters) :
    resolve_device_type env ci d s = ([], s, .ok d) := by
  simp [resolve_device_type]

/-! Scenario lemmas: full symbolic traces of `flash_device` sessions. -/

/-- VSD branch, erase succeeding, post-erase reset succeeding, every flash
invocation failing: the session performs the fixed `--speed low --verify`
flash command `3 × max_retries` times (the speed loop still iterates all
three speeds for `chip_type = "CH32V003"`), re-checks the absolute
firmware path before every attempt, ignores the results of the pre-retry
resets, and ends in `flashExhausted`. -/
theorem vsd_allfail_trace (env : Env) (p d : String) (o : WlinkOptions)
    (ci : ChipInfo)
    (hp1 : env.pathExists p = true) (hp2 : env.pathIsFile p = true)
    (hp3 : env.pathReadable p = true)
    (hpa : env.pathExists (env.abspath p) = true)
    (hdet : ∀ i, chipMatch (env.detectOutput i) = some ci)
    (hvsd : strContains "VSD Squadran Mini" d = true)
    (her : ∀ n, env.run n (erase_cmd_vsd "CH32V003") = true)
    (hreset1 : env.run 1 ["wlink", "reset"] = true)
    (hflash : ∀ n, env.run n (flash_cmd_verify "CH32V003" (env.abspath p)) = false) :
    flash_body_run env p o d =
      ([.checkExists p true, .checkExists p true, .checkIsFile p true,
        .checkReadable p true,
        .invoke (.shellStr "wlink status -v") true,
        .invoke (.tokens (erase_cmd_vsd "CH32V003")) true,
        .invoke (.tokens ["wlink", "reset"]) true,
        .checkExists (env.abspath p) true,
        .invoke (.tokens (flash_cmd_verify "CH32V003" (env.abspath p))) false,
        .invoke (.tokens ["wlink", "reset"]) (env.run 3 ["wlink", "reset"]),
        .sleep 2,
        .checkExists (env.abspath p) true,
        .invoke (.tokens (flash_cmd_verify "CH32V003" (env.abspath p))) false,
        .invoke (.tokens ["wlink", "reset"]) (env.run 5 ["wlink", "reset"]),
        .sleep 2,
        .checkExists (env.abspath p) true,
        .invoke (.tokens (flash_cmd_verify "CH32V003" (env.abspath p))) false,
        .checkExists (env.abspath p) true,
        .invoke (.tokens (flash_cmd_verify "CH32V003" (env.abspath p))) false,
        .invoke (.tokens ["wlink", "reset"]) (env.run 8 ["wlink", "reset"]),
        .sleep 2,
        .checkExists (env.abspath p) true,
        .invoke (.tokens (flash_cmd_verify "CH32V003" (env.abspath p))) false,
        .invoke (.tokens ["wlink", "reset"]) (env.run 10 ["wlink", "reset"]),
        .sleep 2,
        .checkExists (env.abspath p) true,
        .invoke (.tokens (flash_cmd_verify "CH32V003" (env.abspath p))) false,
        .checkExists (env.abspath p) true,
        .invoke (.tokens (flash_cmd_verify "CH32V003" (env.abspath p))) false,
        .invoke (.tokens ["wlink", "reset"]) (env.run 13 ["wlink", "reset"]),
        .sleep 2,
        .checkExists (env.abspath p) true,
        .invoke (.tokens (flash_cmd_verify "CH32V003" (env.abspath p))) false,
        .invoke (.tokens ["wlink", "reset"]) (env.run 15 ["wlink", "reset"]),
        .sleep 2,
        .checkExists (env.abspath p) true,
        .invoke (.tokens (flash_cmd_verify "CH32V003" (env.abspath p))) false],
       ⟨17, 1⟩, .error .flashExhausted) := by
  simp [flash_body_run, flash_device_body, check_firmware_file, detect_chip_type,
        vsd_speed_loop, vsd_flash_attempts, erase_attempt_loop, reset_device,
        max_retries, hp1, hp2, hp3, hpa, hdet, hvsd, her, hreset1, hflash]

/-- VSD branch, erase succeeding but the mandatory post-erase reset
failing: the session aborts with `resetFailed` before any flash
invocation. -/
theorem vsd_resetfail_trace (env : Env) (p d : String) (o : WlinkOptions)
    (ci : ChipInfo)
    (hp1 : env.pathExists p = true) (hp2 : env.pathIsFile p = true)
    (hp3 : env.pathReadable p = true)
    (hdet : ∀ i, chipMatch (env.detectOutput i) = some ci)
    (hvsd : strContains "VSD Squadran Mini" d = true)
    (her : ∀ n, env.run n (erase_cmd_vsd "CH32V003") = true)
    (hreset1 : env.run 1 ["wlink", "reset"] = false) :
    flash_body_run env p o d =
      ([.checkExists p true, .checkExists p true, .checkIsFile p true,
        .checkReadable p true,
        .invoke (.shellStr "wlink status -v") true,
        .invoke (.tokens (erase_cmd_vsd "CH32V003")) true,
        .invoke (.tokens ["wlink", "reset"]) false],
       ⟨2, 1⟩, .error .resetFailed) := by
  simp [flash_body_run, flash_device_body, check_firmware_file, detect_chip_type,
        erase_attempt_loop, reset_device,
        max_retries, hp1, hp2, hp3, hdet, hvsd, her, hreset1]

/-- VSD branch with every erase invocation failing: exactly three erase
attempts separated by 2-second sleeps, then `eraseFailed`; no reset and no
flash invocation. -/
theorem vsd_erasefail_trace (env : Env) (p d : String) (o : WlinkOptions)
    (ci : ChipInfo)
    (hp1 : env.pathExists p = true) (hp2 : env.pathIsFile p = true)
    (hp3 : env.pathReadable p = true)
    (hdet : ∀ i, chipMatch (env.detectOutput i) = some ci)
    (hvsd : strContains "VSD Squadran Mini" d = true)
    (her : ∀ n, env.run n (erase_cmd_vsd "CH32V003") = false) :
    flash_body_run env p o d =
      ([.checkExists p true, .checkExists p true, .checkIsFile p true,
        .checkReadable p true,
        .invoke (.shellStr "wlink status -v") true,
        .invoke (.tokens (erase_cmd_vsd "CH32V003")) false, .sleep 2,
        .invoke (.tokens (erase_cmd_vsd "CH32V003")) false, .sleep 2,
        .invoke (.tokens (erase_cmd_vsd "CH32V003")) false],
       ⟨3, 1⟩, .error .eraseFailed) := by
  simp [flash_body_run, flash_device_body, check_firmware_file, detect_chip_type,
        erase_attempt_loop, max_retries, hp1, hp2, hp3, hdet, hvsd, her]

/-- Non-VSD branch with every erase invocation failing: exactly three
erase attempts separated by 2-second sleeps, then `eraseFailed`; no flash
invocation. -/
theorem other_erasefail_trace (env : Env) (p d : String) (o : WlinkOptions)
    (ci : ChipInfo)
    (hp1 : env.pathExists p = true) (hp2 : env.pathIsFile p = true)
    (hp3 : env.pathReadable p = true)
    (hdet : ∀ i, chipMatch (env.detectOutput i) = some ci)
    (hvsd : strContains "VSD Squadran Mini" d = false)
    (her : ∀ n, env.run n (erase_cmd_other ci.erase_chip) = false) :
    flash_body_run env p o d =
      ([.checkExists p true, .checkExists p true, .checkIsFile p true,
        .checkReadable p true,
        .invoke (.shellStr "wlink status -v") true,
        .invoke (.shellStr "wlink status -v") true,
        .invoke (.tokens (erase_cmd_other ci.erase_chip)) false, .sleep 2,
        .invoke (.tokens (erase_cmd_other ci.erase_chip)) false, .sleep 2,
        .invoke (.tokens (erase_cmd_other ci.erase_chip)) false],
       ⟨3, 2⟩, .error .eraseFailed) := by
  simp [flash_body_run, flash_device_body, check_firmware_file, detect_chip_type,
        erase_attempt_loop, max_retries, hp1, hp2, hp3, hdet, hvsd, her]

/-- Non-VSD branch starting at speed `high`, with erase succeeding, flash
failing at `high` and `medium` and succeeding at `low`: exactly
`2 × max_retries` failed flash invocations, then one successful one, and
the body returns `(true, wlink_options)` — the options exactly as passed
in. -/
theorem other_lowsuccess_trace (env : Env) (p d : String) (o : WlinkOptions)
    (ci : ChipInfo)
    (hp1 : env.pathExists p = true) (hp2 : env.pathIsFile p = true)
    (hp3 : env.pathReadable p = true)
    (hdet : ∀ i, chipMatch (env.detectOutput i) = some ci)
    (hvsd : strContains "VSD Squadran Mini" d = false)
    (hsp : o.speed = .high)
    (her : ∀ n, env.run n (erase_cmd_other ci.erase_chip) = true)
    (hfh : ∀ n, env.run n (flash_cmd_other ci.flash_chip .high p) = false)
    (hfm : ∀ n, env.run n (flash_cmd_other ci.flash_chip .medium p) = false)
    (hfl : ∀ n, env.run n (flash_cmd_other ci.flash_chip .low p) = true) :
    flash_body_run env p o d =
      ([.checkExists p true, .checkExists p true, .checkIsFile p true,
        .checkReadable p true,
        .invoke (.shellStr "wlink status -v") true,
        .invoke (.shellStr "wlink status -v") true,
        .invoke (.tokens (erase_cmd_other ci.erase_chip)) true,
        .sleep 5,
        .sleep 5,
        .invoke (.tokens (flash_cmd_other ci.flash_chip .high p)) false, .sleep 10,
        .invoke (.tokens (flash_cmd_other ci.flash_chip .high p)) false, .sleep 10,
        .invoke (.tokens (flash_cmd_other ci.flash_chip .high p)) false, .sleep 5,
        .sleep 5,
        .invoke (.tokens (flash_cmd_other ci.flash_chip .medium p)) false, .sleep 10,
        .invoke (.tokens (flash_cmd_other ci.flash_chip .medium p)) false, .sleep 10,
        .invoke (.tokens (flash_cmd_other ci.flash_chip .medium p)) false, .sleep 5,
        .sleep 5,
        .invoke (.tokens (flash_cmd_other ci.flash_chip .low p)) true],
       ⟨8, 2⟩, .ok (true, o)) := by
  simp [flash_body_run, flash_device_body, check_firmware_file, detect_chip_type,
        other_speed_loop, other_flash_attempts, erase_attempt_loop,
        speed_index_other, max_retries, hp1, hp2, hp3, hdet, hvsd, hsp,
        her, hfh, hfm, hfl]

/-- A non-existing firmware path fails the session immediately: the trace
is the single failed existence check and the body raises
`firmwareNotFound` before any external invocation. -/
theorem nofile_trace (env : Env) (p d : String) (o : WlinkOptions)
    (hp : env.pathExists p = false) :
    flash_body_run env p o d =
      ([.checkExists p false], ⟨0, 0⟩, .error .firmwareNotFound) := by
  simp [flash_body_run, flash_device_body, hp]

theorem FM.bind_events {α β : Type} {m : FM α} {f : α → FM β} {s : Counters}
    {P : Event → Prop}
    (hm : ∀ e ∈ (m s).1, P e)
    (hf : ∀ a s', ∀ e ∈ (f a s').1, P e) :
    ∀ e ∈ (FM.bind m f s).1, P e := by
  intro e he
  unfold FM.bind at he
  rcases hms : m s with ⟨es, s1, r⟩
  rw [hms] at he
  rw [hms] at hm
  cases r with
  | ok a =>
    dsimp only at he
    rcases hfs : f a s1 with ⟨es2, s2, r2⟩
    rw [hfs] at he
    simp only [List.mem_append] at he
    rcases he with he | he
    · exact hm e he
    · have := hf a s1
      rw [hfs] at this
      exact this e he
  | error er => exact hm e he

theorem FM.pure_events {α : Type} {a : α} {s : Counters} {P : Event → Prop} :
    ∀ e ∈ (FM.pure a s).1, P e := by
  intro e he
  simp [FM.pure] at he

theorem throwE_events {α : Type} {er : Err} {s : Counters} {P : Event → Prop} :
    ∀ e ∈ ((throwE er : FM α) s).1, P e := by
  intro e he
  simp [throwE] at he

theorem emit_events {ev : Event} {s : Counters} {P : Event → Prop} (h : P ev) :
    ∀ e ∈ (emit ev s).1, P e := by
  intro e he
  simp [emit] at he
  exact he ▸ h

theorem run_command_events {env : Env} {cmd : List String} {s : Counters}
    {P : Event → Prop} (h : ∀ b, P (.invoke (.tokens cmd) b)) :
    ∀ e ∈ (run_command env cmd s).1, P e := by
  intro e he
  simp [run_command] at he
  exact he ▸ h _

theorem status_probe_events {env : Env} {s : Counters} {P : Event → Prop}
    (h : P (.invoke (.shellStr "wlink status -v") true)) :
    ∀ e ∈ (status_probe env s).1, P e := by
  intro e he
  simp [status_probe] at he
  exact he ▸ h

theorem erase_attempt_loop_events {env : Env} {cmd : List String}
    {P : Event → Prop}
    (hc : ∀ b, P (.invoke (.tokens cmd) b)) (hs : P (.sleep 2)) :
    ∀ (l : List Nat) (s : Counters), ∀ e ∈ (erase_attempt_loop env cmd l s).1, P e := by
  intro l
  induction l with
  | nil => intro s; exact FM.pure_events
  | cons a rest ih =>
    intro s
    unfold erase_attempt_loop
    refine FM.bind_events (run_command_events hc) ?_
    intro ok s'
    split
    · exact FM.pure_events
    · split
      · exact FM.bind_events (emit_events hs) (fun _ s'' => ih s'')
      · exact throwE_events

theorem check_firmware_file_events {env : Env} {p : String} {P : Event → Prop}
    (h1 : ∀ b, P (.checkExists p b)) (h2 : ∀ b, P (.checkIsFile p b))
    (h3 : ∀ b, P (.checkReadable p b)) :
    ∀ (s : Counters), ∀ e ∈ (check_firmware_file env p s).1, P e := by
  intro s
  unfold check_firmware_file
  refine FM.bind_events (emit_events (h1 _)) ?_
  intro a s'
  split
  · exact throwE_events
  · refine FM.bind_events (emit_events (h2 _)) ?_
    intro a s''
    split
    · exact throwE_events
    · refine FM.bind_events (emit_events (h3 _)) ?_
      intro a s3
      split
      · exact throwE_events
      · exact FM.pure_events

theorem detect_chip_type_events {env : Env} {P : Event → Prop}
    (h : P (.invoke (.shellStr "wlink status -v") true)) :
    ∀ (s : Counters), ∀ e ∈ (detect_chip_type env s).1, P e := by
  intro s
  unfold detect_chip_type
  refine FM.bind_events (status_probe_events h) ?_
  intro a s'
  rcases hma : chipMatch a with _ | ci <;> simp only [hma]
  · exact throwE_events
  · exact FM.pure_events

theorem vsd_flash_attempts_events {env : Env} {chip p : String}
    {o : WlinkOptions} {sp : Speed} {P : Event → Prop}
    (hchk : ∀ b, P (.checkExists (env.abspath p) b))
    (hfv : ∀ b, P (.invoke (.tokens (flash_cmd_verify chip (env.abspath p))) b))
    (hfs : ∀ spd b, P (.invoke (.tokens (flash_cmd_vsd chip spd (env.abspath p))) b))
    (hrst : ∀ b, P (.invoke (.tokens ["wlink", "reset"]) b))
    (hsl : P (.sleep 2)) :
    ∀ (l : List Nat) (s : Counters),
      ∀ e ∈ (vsd_flash_attempts env chip p o sp l s).1, P e := by
  intro l
  induction l with
  | nil => intro s; exact FM.pure_events
  | cons a rest ih =>
    intro s
    unfold vsd_flash_attempts
    refine FM.bind_events (emit_events (hchk _)) ?_
    intro _ s1
    split
    · exact throwE_events
    · refine FM.bind_events (run_command_events ?_) ?_
      · intro b
        split
        · exact hfv b
        · exact hfs _ b
      · intro ok s2
        split
        · exact FM.pure_events
        · split
          · exact FM.bind_events (run_command_events hrst)
              (fun _ s3 => FM.bind_events (emit_events hsl) (fun _ s4 => ih s4))
          · split
            · exact FM.bind_events (run_command_events hrst)
                (fun _ s3 => FM.bind_events (emit_events hsl)
                  (fun _ s4 => FM.pure_events))
            · exact FM.pure_events

theorem vsd_speed_loop_events {env : Env} {chip p : String}
    {o : WlinkOptions} {P : Event → Prop}
    (hchk : ∀ b, P (.checkExists (env.abspath p) b))
    (hfv : ∀ b, P (.invoke (.tokens (flash_cmd_verify chip (env.abspath p))) b))
    (hfs : ∀ spd b, P (.invoke (.tokens (flash_cmd_vsd chip spd (env.abspath p))) b))
    (hrst : ∀ b, P (.invoke (.tokens ["wlink", "reset"]) b))
    (hsl : P (.sleep 2)) :
    ∀ (speeds : List Speed) (s : Counters),
      ∀ e ∈ (vsd_speed_loop env chip p o speeds s).1, P e := by
  intro speeds
  induction speeds with
  | nil => intro s; exact throwE_events
  | cons sp rest ih =>
    intro s
    unfold vsd_speed_loop
    refine FM.bind_events (vsd_flash_attempts_events hchk hfv hfs hrst hsl _ s) ?_
    intro r s'
    rcases r with _ | result
    · exact ih s'
    · exact FM.pure_events

theorem other_flash_attempts_events {env : Env} {chip p : String}
    {o : WlinkOptions} {sp : Speed} {P : Event → Prop}
    (hf : ∀ spd b, P (.invoke (.tokens (flash_cmd_other chip spd p)) b))
    (hs10 : P (.sleep 10)) (hs5 : P (.sleep 5)) :
    ∀ (l : List Nat) (s : Counters),
      ∀ e ∈ (other_flash_attempts env chip p o sp l s).1, P e := by
  intro l
  induction l with
  | nil => intro s; exact FM.pure_events
  | cons a rest ih =>
    intro s
    unfold other_flash_attempts
    refine FM.bind_events (run_command_events (hf _)) ?_
    intro ok s'
    split
    · exact FM.pure_events
    · split
      · exact FM.bind_events (emit_events hs10) (fun _ s'' => ih s'')
      · split
        · exact FM.bind_events (emit_events hs5) (fun _ s'' => FM.pure_events)
        · exact FM.pure_events

theorem other_speed_loop_events {env : Env} {chip p : String}
    {o : WlinkOptions} {P : Event → Prop}
    (hf : ∀ spd b, P (.invoke (.tokens (flash_cmd_other chip spd p)) b))
    (hs10 : P (.sleep 10)) (hs5 : P (.sleep 5)) :
    ∀ (speeds : List Speed) (s : Counters),
      ∀ e ∈ (other_speed_loop env chip p o speeds s).1, P e := by
  intro speeds
  induction speeds with
  | nil => intro s; exact throwE_events
  | cons sp rest ih =>
    intro s
    unfold other_speed_loop
    refine FM.bind_events (emit_events hs5) ?_
    intro _ s0
    refine FM.bind_events (other_flash_attempts_events hf hs10 hs5 _ s0) ?_
    intro r s'
    rcases r with _ | result
    · exact ih s'
    · exact FM.pure_events

theorem FM.bind_events_precise {α β : Type} {m : FM α} {f : α → FM β}
    {s : Counters} {P : Event → Prop}
    (hm : ∀ e ∈ (m s).1, P e)
    (hf : ∀ es a s', m s = (es, s', .ok a) → ∀ e ∈ (f a s').1, P e) :
    ∀ e ∈ (FM.bind m f s).1, P e := by
  intro e he
  unfold FM.bind at he
  rcases hms : m s with ⟨es, s1, r⟩
  rw [hms] at he
  rw [hms] at hm
  cases r with
  | ok a =>
    dsimp only at he
    rcases hfs : f a s1 with ⟨es2, s2, r2⟩
    rw [hfs] at he
    simp only [List.mem_append] at he
    rcases he with he | he
    · exact hm e he
    · have := hf es a s1 hms
      rw [hfs] at this
      exact this e he
  | error er => exact hm e he

theorem flash_body_events_vsd (env : Env) (p : String) (o : WlinkOptions)
    (d : String) {P : Event → Prop}
    (hvsd : strContains "VSD Squadran Mini" d = true)
    (hchk : ∀ q b, P (.checkExists q b))
    (hfile : ∀ q b, P (.checkIsFile q b))
    (hread : ∀ q b, P (.checkReadable q b))
    (hsleep : ∀ n, P (.sleep n))
    (hprobe : P (.invoke (.shellStr "wlink status -v") true))
    (her : ∀ b, P (.invoke (.tokens (erase_cmd_vsd "CH32V003")) b))
    (hrst : ∀ b, P (.invoke (.tokens ["wlink", "reset"]) b))
    (hfv : ∀ b, P (.invoke (.tokens (flash_cmd_verify "CH32V003" (env.abspath p))) b))
    (hfs : ∀ spd b, P (.invoke (.tokens (flash_cmd_vsd "CH32V003" spd (env.abspath p))) b)) :
    ∀ (s : Counters), ∀ e ∈ (flash_device_body env p o d s).1, P e := by
  intro s
  unfold flash_device_body
  refine FM.bind_events (emit_events (hchk _ _)) ?_
  intro _ s1
  split
  · exact throwE_events
  · refine FM.bind_events (check_firmware_file_events (hchk _) (hfile _) (hread _) _) ?_
    intro _ s2
    refine FM.bind_events (detect_chip_type_events hprobe _) ?_
    intro ci s3
    refine FM.bind_events_precise ?_ ?_
    · intro e he
      rw [resolve_device_type_eval] at he
      simp at he
    · intro es dt s4 heq
      rw [resolve_device_type_eval] at heq
      injection heq with h1 h2
      injection h2 with h2 h3
      injection h3 with h3
      subst h2
      subst h3
      rw [hvsd]
      simp only [actual_chip_scan_eq_none, Option.getD_none, if_pos]
      refine FM.bind_events (erase_attempt_loop_events her (hsleep 2) _ _) ?_
      intro _ s5
      refine FM.bind_events (run_command_events hrst) ?_
      intro rok s6
      split
      · exact throwE_events
      · exact vsd_speed_loop_events (fun b => hchk _ b) hfv hfs hrst (hsleep 2) _ _

theorem flash_body_events_other (env : Env) (p : String) (o : WlinkOptions)
    (d : String) {P : Event → Prop}
    (hvsd : strContains "VSD Squadran Mini" d = false)
    (hchk : ∀ q b, P (.checkExists q b))
    (hfile : ∀ q b, P (.checkIsFile q b))
    (hread : ∀ q b, P (.checkReadable q b))
    (hsleep : ∀ n, P (.sleep n))
    (hprobe : P (.invoke (.shellStr "wlink status -v") true))
    (her : ∀ chip b, P (.invoke (.tokens (erase_cmd_other chip)) b))
    (hf : ∀ chip spd b, P (.invoke (.tokens (flash_cmd_other chip spd p)) b)) :
    ∀ (s : Counters), ∀ e ∈ (flash_device_body env p o d s).1, P e := by
  intro s
  unfold flash_device_body
  refine FM.bind_events (emit_events (hchk _ _)) ?_
  intro _ s1
  split
  · exact throwE_events
  · refine FM.bind_events (check_firmware_file_events (hchk _) (hfile _) (hread _) _) ?_
    intro _ s2
    refine FM.bind_events (detect_chip_type_events hprobe _) ?_
    intro ci s3
    refine FM.bind_events_precise ?_ ?_
    · intro e he
      rw [resolve_device_type_eval] at he
      simp at he
    · intro es dt s4 heq
      rw [resolve_device_type_eval] at heq
      injection heq with h1 h2
      injection h2 with h2 h3
      injection h3 with h3
      subst h2
      subst h3
      rw [hvsd]
      simp only [Bool.false_eq_true, if_neg, ite_false]
      refine FM.bind_events (detect_chip_type_events hprobe _) ?_
      intro ci2 s5
      refine FM.bind_events (erase_attempt_loop_events (her _) (hsleep 2) _ _) ?_
      intro _ s6
      refine FM.bind_events (emit_events (hsleep 5)) ?_
      intro _ s7
      exact other_speed_loop_events (hf _) (hsleep 10) (hsleep 5) _ _

theorem flash_device_trace_eq (env : Env) (p : String) (o : WlinkOptions)
    (d : String) :
    (flash_device env p o d).1 = (flash_body_run env p o d).1 := by
  unfold flash_device flash_body_run
  rcases h : flash_device_body env p o d ⟨0, 0⟩ with ⟨es, st, r⟩
  cases r <;> simp

theorem FM.bind_ok_inv {α β : Type} {m : FM α} {f : α → FM β} {s : Counters}
    {P : β → Prop}
    (hf : ∀ es a s', m s = (es, s', .ok a) →
      ∀ b, ((f a s').2.2 = .ok b) → P b) :
    ∀ b, (FM.bind m f s).2.2 = .ok b → P b := by
  intro b hb
  unfold FM.bind at hb
  rcases hms : m s with ⟨es, s1, r⟩
  rw [hms] at hb
  cases r with
  | ok a =>
    dsimp only at hb
    rcases hfs : f a s1 with ⟨es2, s2, r2⟩
    rw [hfs] at hb
    dsimp only at hb
    exact hf es a s1 hms b (by rw [hfs]; exact hb)
  | error er => exact absurd hb (by simp)

theorem vsd_flash_attempts_ok (env : Env) (chip p : String) (o : WlinkOptions)
    (sp : Speed) :
    ∀ (l : List Nat) (s : Counters) (r : Option (Bool × WlinkOptions)),
      ((vsd_flash_attempts env chip p o sp l) s).2.2 = .ok r →
      r = none ∨ r = some (true, o) := by
  intro l
  induction l with
  | nil =>
    intro s r h
    unfold vsd_flash_attempts at h
    simp [FM.pure] at h
    exact Or.inl h.symm
  | cons a rest ih =>
    intro s r h
    unfold vsd_flash_attempts at h
    simp only [FM.bind_def] at h
    revert h
    refine FM.bind_ok_inv (P := fun r => r = none ∨ r = some (true, o)) ?_ r
    intro _ _ _ _
    split
    · intro b hb; exact absurd hb (by simp [throwE])
    · refine FM.bind_ok_inv (P := fun r => r = none ∨ r = some (true, o)) ?_
      intro _ ok s'' _
      split
      · intro b hb
        simp [FM.pure] at hb
        exact Or.inr hb.symm
      · split
        · refine FM.bind_ok_inv (P := fun r => r = none ∨ r = some (true, o)) ?_
          intro _ _ s3 _
          refine FM.bind_ok_inv (P := fun r => r = none ∨ r = some (true, o)) ?_
          intro _ _ s4 _
          intro b hb
          exact ih s4 b hb
        · split
          · refine FM.bind_ok_inv (P := fun r => r = none ∨ r = some (true, o)) ?_
            intro _ _ s3 _
            refine FM.bind_ok_inv (P := fun r => r = none ∨ r = some (true, o)) ?_
            intro _ _ s4 _
            intro b hb
            simp [FM.pure] at hb
            exact Or.inl hb.symm
          · intro b hb
            simp [FM.pure] at hb
            exact Or.inl hb.symm

theorem vsd_speed_loop_ok (env : Env) (chip p : String) (o : WlinkOptions) :
    ∀ (speeds : List Speed) (s : Counters) (r : Bool × WlinkOptions),
      ((vsd_speed_loop env chip p o speeds) s).2.2 = .ok r → r = (true, o) := by
  intro speeds
  induction speeds with
  | nil =>
    intro s r h
    exact absurd h (by simp [vsd_speed_loop, throwE])
  | cons sp rest ih =>
    intro s r h
    unfold vsd_speed_loop at h
    simp only [FM.bind_def] at h
    revert h
    refine FM.bind_ok_inv (P := fun r => r = (true, o)) ?_ r
    intro es a s' heq
    have ha : a = none ∨ a = some (true, o) :=
      vsd_flash_attempts_ok env chip p o sp _ s a (by rw [heq])
    rcases ha with ha | ha <;> subst ha
    · intro b hb
      exact ih s' b hb
    · intro b hb
      simp [FM.pure] at hb
      exact hb.symm

theorem other_flash_attempts_ok (env : Env) (chip p : String) (o : WlinkOptions)
    (sp : Speed) :
    ∀ (l : List Nat) (s : Counters) (r : Option (Bool × WlinkOptions)),
      ((other_flash_attempts env chip p o sp l) s).2.2 = .ok r →
      r = none ∨ r = some (true, o) := by
  intro l
  induction l with
  | nil =>
    intro s r h
    unfold other_flash_attempts at h
    simp [FM.pure] at h
    exact Or.inl h.symm
  | cons a rest ih =>
    intro s r h
    unfold other_flash_attempts at h
    simp only [FM.bind_def] at h
    revert h
    refine FM.bind_ok_inv (P := fun r => r = none ∨ r = some (true, o)) ?_ r
    intro _ ok s' _
    split
    · intro b hb
      simp [FM.pure] at hb
      exact Or.inr hb.symm
    · split
      · refine FM.bind_ok_inv (P := fun r => r = none ∨ r = some (true, o)) ?_
        intro _ _ s'' _
        intro b hb
        exact ih s'' b hb
      · split
        · refine FM.bind_ok_inv (P := fun r => r = none ∨ r = some (true, o)) ?_
          intro _ _ s'' _
          intro b hb
          simp [FM.pure] at hb
          exact Or.inl hb.symm
        · intro b hb
          simp [FM.pure] at hb
          exact Or.inl hb.symm

theorem other_speed_loop_ok (env : Env) (chip p : String) (o : WlinkOptions) :
    ∀ (speeds : List Speed) (s : Counters) (r : Bool × WlinkOptions),
      ((other_speed_loop env chip p o speeds) s).2.2 = .ok r → r = (true, o) := by
  intro speeds
  induction speeds with
  | nil =>
    intro s r h
    exact absurd h (by simp [other_speed_loop, throwE])
  | cons sp rest ih =>
    intro s r h
    unfold other_speed_loop at h
    simp only [FM.bind_def] at h
    revert h
    refine FM.bind_ok_inv (P := fun r => r = (true, o)) ?_ r
    intro _ _ s0 _
    refine FM.bind_ok_inv (P := fun r => r = (true, o)) ?_
    intro es a s' heq
    have ha : a = none ∨ a = some (true, o) :=
      other_flash_attempts_ok env chip p o sp _ s0 a (by rw [heq])
    rcases ha with ha | ha <;> subst ha
    · intro b hb
      exact ih s' b hb
    · intro b hb
      simp [FM.pure] at hb
      exact hb.symm

theorem flash_body_ok (env : Env) (p : String) (o : WlinkOptions) (d : String) :
    ∀ (s : Counters) (r : Bool × WlinkOptions),
      ((flash_device_body env p o d) s).2.2 = .ok r → r = (true, o) := by
  intro s r h
  unfold flash_device_body at h
  simp only [FM.bind_def] at h
  revert h
  refine FM.bind_ok_inv (P := fun r => r = (true, o)) ?_ r
  intro _ _ _ _
  split
  · intro b hb; exact absurd hb (by simp [throwE])
  · refine FM.bind_ok_inv (P := fun r => r = (true, o)) ?_
    intro _ _ _ _
    refine FM.bind_ok_inv (P := fun r => r = (true, o)) ?_
    intro _ ci _ _
    refine FM.bind_ok_inv (P := fun r => r = (true, o)) ?_
    intro _ dt s4 _
    split
    · refine FM.bind_ok_inv (P := fun r => r = (true, o)) ?_
      intro _ _ _ _
      refine FM.bind_ok_inv (P := fun r => r = (true, o)) ?_
      intro _ rok s6 _
      split
      · intro b hb; exact absurd hb (by simp [throwE])
      · intro b hb
        exact vsd_speed_loop_ok env _ p o _ s6 b hb
    · refine FM.bind_ok_inv (P := fun r => r = (true, o)) ?_
      intro _ ci2 _ _
      refine FM.bind_ok_inv (P := fun r => r = (true, o)) ?_
      intro _ _ _ _
      refine FM.bind_ok_inv (P := fun r => r = (true, o)) ?_
      intro _ _ s7 _
      intro b hb
      exact other_speed_loop_ok env _ p o _ s7 b hb

/-- When the body raises, the handlers of flash_tool.py:664–669 turn the
session into `(False, wlink_options)` with the trace produced so far. -/
theorem flash_device_of_error (env : Env) (p : String) (o : WlinkOptions)
    (d : String) (es : List Event) (st : Counters) (er : Err)
    (h : flash_body_run env p o d = (es, st, .error er)) :
    flash_device env p o d = (es, (false, o)) := by
  unfold flash_device
  unfold flash_body_run at h
  rw [h]

/-- When the body returns, `flash_device` passes its result through. -/
theorem flash_device_of_ok (env : Env) (p : String) (o : WlinkOptions)
    (d : String) (es : List Event) (st : Counters) (r : Bool × WlinkOptions)
    (h : flash_body_run env p o d = (es, st, .ok r)) :
    flash_device env p o d = (es, r) := by
  unfold flash_device
  unfold flash_body_run at h
  rw [h]

/-- C3: in every flash session in which the external erase invocation
fails on every attempt, the erase command is attempted exactly
`max_retries = 3` times with a single fixed 2-second sleep between
consecutive attempts, exhaustion raises the erase-failure error which
ends the session as `(false, options)`, and no flash invocation is ever
issued in that session. -/
theorem C3_erase_retry_policy (env : Env) (p d : String) (o : WlinkOptions)
    (ci : ChipInfo)
    (hp1 : env.pathExists p = true) (hp2 : env.pathIsFile p = true)
    (hp3 : env.pathReadable p = true)
    (hdet : ∀ i, chipMatch (env.detectOutput i) = some ci)
    (herV : ∀ n, env.run n (erase_cmd_vsd "CH32V003") = false)
    (herO : ∀ n, env.run n (erase_cmd_other ci.erase_chip) = false) :
    (let cmd := if strContains "VSD Squadran Mini" d then erase_cmd_vsd "CH32V003"
                else erase_cmd_other ci.erase_chip
     (flash_device env p o d).1.filter (fun e => e.isEraseInvoke || e.isSleep2) =
       [.invoke (.tokens cmd) false, .sleep 2,
        .invoke (.tokens cmd) false, .sleep 2,
        .invoke (.tokens cmd) false]) ∧
    (eraseInvs (flash_device env p o d).1).length = max_retries ∧
    flashInvs (flash_device env p o d).1 = [] ∧
    (flash_device env p o d).2 = (false, o) ∧
    (flash_body_run env p o d).2.2 = .error .eraseFailed := by
  by_cases hd : strContains "VSD Squadran Mini" d
  · have ht := vsd_erasefail_trace env p d o ci hp1 hp2 hp3 hdet hd herV
    have hfd := flash_device_of_error env p o d _ _ _ ht
    rw [hfd, ht]
    simp [hd, eraseInvs, flashInvs, Event.isEraseInvoke, Event.isSleep2,
          Event.isFlashInvoke, erase_cmd_vsd, max_retries]
  · have hd' : strContains "VSD Squadran Mini" d = false := by
      exact Bool.not_eq_true _ ▸ (by simpa using hd)
    have ht := other_erasefail_trace env p d o ci hp1 hp2 hp3 hdet hd' herO
    have hfd := flash_device_of_error env p o d _ _ _ ht
    rw [hfd, ht]
    simp [hd', eraseInvs, flashInvs, Event.isEraseInvoke, Event.isSleep2,
          Event.isFlashInvoke, erase_cmd_other, max_retries]

/-- C3 witness: the policy at a concrete session (VSD device, erase
failing everywhere). -/
theorem C3_erase_retry_policy_witness :
    ((flash_device envEraseAlwaysFails fwPath optsHighPowerOff vsdDevice).1.filter
        (fun e => e.isEraseInvoke || e.isSleep2) =
      [.invoke (.tokens (erase_cmd_vsd "CH32V003")) false, .sleep 2,
       .invoke (.tokens (erase_cmd_vsd "CH32V003")) false, .sleep 2,
       .invoke (.tokens (erase_cmd_vsd "CH32V003")) false]) ∧
    (eraseInvs (flash_device envEraseAlwaysFails fwPath optsHighPowerOff vsdDevice).1).length
      = max_retries ∧
    flashInvs (flash_device envEraseAlwaysFails fwPath optsHighPowerOff vsdDevice).1 = [] ∧
    (flash_device envEraseAlwaysFails fwPath optsHighPowerOff vsdDevice).2
      = (false, optsHighPowerOff) ∧
    (flash_body_run envEraseAlwaysFails fwPath optsHighPowerOff vsdDevice).2.2
      = .error .eraseFailed :=
  C3_erase_retry_policy envEraseAlwaysFails fwPath vsdDevice optsHighPowerOff
    ⟨"CH32V003", "CH32V003"⟩ rfl rfl rfl (fun _ => rfl) (fun _ => rfl) (fun _ => rfl)

/-- C8: for every firmware path that does not exist, `flash_device`
fails with the validation error and issues zero external invocations. -/
theorem C8_validation_short_circuit (env : Env) (p d : String)
    (o : WlinkOptions) (hp : env.pathExists p = false) :
    invs (flash_device env p o d).1 = [] ∧
    (flash_device env p o d).2 = (false, o) ∧
    (flash_body_run env p o d).2.2 = .error .firmwareNotFound := by
  have ht := nofile_trace env p d o hp
  have hfd := flash_device_of_error env p o d _ _ _ ht
  rw [hfd, ht]
  simp [invs, Event.isInvoke]

/-- C8 witness: the short circuit at a concrete session. -/
theorem C8_validation_short_circuit_witness :
    invs (flash_device envNoFile fwPath optsHighPowerOff vsdDevice).1 = [] ∧
    (flash_device envNoFile fwPath optsHighPowerOff vsdDevice).2
      = (false, optsHighPowerOff) ∧
    (flash_body_run envNoFile fwPath optsHighPowerOff vsdDevice).2.2
      = .error .firmwareNotFound :=
  C8_validation_short_circuit envNoFile fwPath vsdDevice optsHighPowerOff rfl

/-- C9: `flash_device` is total — for every environment and input it
returns a pair; whenever the session body raises any error, the
`except` handlers convert it into `(false, wlink_options)` with the
options passed in, and a normal body result is passed through unchanged;
no error propagates to the caller. -/
theorem C9_errors_caught_at_boundary (env : Env) (p : String)
    (o : WlinkOptions) (d : String) :
    (∃ r, (flash_body_run env p o d).2.2 = .ok r ∧
        flash_device env p o d = ((flash_body_run env p o d).1, r)) ∨
    (∃ er, (flash_body_run env p o d).2.2 = .error er ∧
        flash_device env p o d = ((flash_body_run env p o d).1, (false, o))) := by
  rcases h : flash_device_body env p o d ⟨0, 0⟩ with ⟨es, st, r⟩
  cases r with
  | ok a =>
    left
    exact ⟨a, by simp [flash_body_run, h], by simp [flash_device, flash_body_run, h]⟩
  | error er =>
    right
    exact ⟨er, by simp [flash_body_run, h], by simp [flash_device, flash_body_run, h]⟩

/-- C10: on every return path — success, exhaustion, or a caught error —
the options component of the pair returned by `flash_device` is exactly
the `wlink_options` value passed in: the orchestrator never writes the
speed actually used (or anything else) into the options it returns. -/
theorem C10_options_returned_unchanged (env : Env) (p : String)
    (o : WlinkOptions) (d : String) :
    (flash_device env p o d).2.2 = o := by
  unfold flash_device
  rcases h : flash_device_body env p o d ⟨0, 0⟩ with ⟨es, st, r⟩
  cases r with
  | ok a =>
    have ha : a = (true, o) := flash_body_ok env p o d ⟨0, 0⟩ a (by rw [h])
    simp [ha]
  | error er => simp

/-- C1 counterexample: at this concrete non-fixed-speed session (speed
list high/medium/low, starting speed high, external tool failing at high
and medium and succeeding at low) the claimed attempt pattern does occur —
`2 × max_retries` failures then one success — and `flash_device` returns
success, but the returned options' speed field is still `high`, not `low`
as the claim states: the options are returned unchanged. -/
theorem C1_counterexample :
    flashInvs (flash_device envLowSpeedOnly fwPath optsHighPinRst otherDevice).1 =
      [.invoke (.tokens (flash_cmd_other "CH32V30X" .high fwPath)) false,
       .invoke (.tokens (flash_cmd_other "CH32V30X" .high fwPath)) false,
       .invoke (.tokens (flash_cmd_other "CH32V30X" .high fwPath)) false,
       .invoke (.tokens (flash_cmd_other "CH32V30X" .medium fwPath)) false,
       .invoke (.tokens (flash_cmd_other "CH32V30X" .medium fwPath)) false,
       .invoke (.tokens (flash_cmd_other "CH32V30X" .medium fwPath)) false,
       .invoke (.tokens (flash_cmd_other "CH32V30X" .low fwPath)) true] ∧
    (flash_device envLowSpeedOnly fwPath optsHighPinRst otherDevice).2.1 = true ∧
    (flash_device envLowSpeedOnly fwPath optsHighPinRst otherDevice).2.2.speed
      = Speed.high ∧
    ¬ (flash_device envLowSpeedOnly fwPath optsHighPinRst otherDevice).2.2.speed
      = Speed.low := by
  decide

/-- C1 amended: for every non-fixed-speed session (speed list
high/medium/low) starting at `high` whose external flash fails at high
and medium and succeeds at low, exactly `2 × max_retries` failed flash
invocations are issued (`max_retries` at high, then `max_retries` at
medium) followed by exactly one successful invocation at low, and
`flash_device` returns success paired with the input options unchanged —
whose speed field therefore still reads `high`, not the successful
`low`. -/
theorem C1_amended (env : Env) (p d : String) (o : WlinkOptions)
    (ci : ChipInfo)
    (hp1 : env.pathExists p = true) (hp2 : env.pathIsFile p = true)
    (hp3 : env.pathReadable p = true)
    (hdet : ∀ i, chipMatch (env.detectOutput i) = some ci)
    (hvsd : strContains "VSD Squadran Mini" d = false)
    (hsp : o.speed = .high)
    (her : ∀ n, env.run n (erase_cmd_other ci.erase_chip) = true)
    (hfh : ∀ n, env.run n (flash_cmd_other ci.flash_chip .high p) = false)
    (hfm : ∀ n, env.run n (flash_cmd_other ci.flash_chip .medium p) = false)
    (hfl : ∀ n, env.run n (flash_cmd_other ci.flash_chip .low p) = true) :
    flashInvs (flash_device env p o d).1 =
      [.invoke (.tokens (flash_cmd_other ci.flash_chip .high p)) false,
       .invoke (.tokens (flash_cmd_other ci.flash_chip .high p)) false,
       .invoke (.tokens (flash_cmd_other ci.flash_chip .high p)) false,
       .invoke (.tokens (flash_cmd_other ci.flash_chip .medium p)) false,
       .invoke (.tokens (flash_cmd_other ci.flash_chip .medium p)) false,
       .invoke (.tokens (flash_cmd_other ci.flash_chip .medium p)) false,
       .invoke (.tokens (flash_cmd_other ci.flash_chip .low p)) true] ∧
    (flashInvs (flash_device env p o d).1).length = 2 * max_retries + 1 ∧
    (flash_device env p o d).2 = (true, o) := by
  have ht := other_lowsuccess_trace env p d o ci hp1 hp2 hp3 hdet hvsd hsp
    her hfh hfm hfl
  have hfd := flash_device_of_ok env p o d _ _ _ ht
  rw [hfd]
  refine ⟨?_, ?_, rfl⟩ <;>
    simp [flashInvs, Event.isFlashInvoke, flash_cmd_other, erase_cmd_other,
          max_retries]

/-- C1 amended witness: the pattern at a concrete session. -/
theorem C1_amended_witness :
    flashInvs (flash_device envLowSpeedOnly fwPath optsHighPinRst otherDevice).1 =
      [.invoke (.tokens (flash_cmd_other "CH32V30X" .high fwPath)) false,
       .invoke (.tokens (flash_cmd_other "CH32V30X" .high fwPath)) false,
       .invoke (.tokens (flash_cmd_other "CH32V30X" .high fwPath)) false,
       .invoke (.tokens (flash_cmd_other "CH32V30X" .medium fwPath)) false,
       .invoke (.tokens (flash_cmd_other "CH32V30X" .medium fwPath)) false,
       .invoke (.tokens (flash_cmd_other "CH32V30X" .medium fwPath)) false,
       .invoke (.tokens (flash_cmd_other "CH32V30X" .low fwPath)) true] ∧
    (flashInvs (flash_device envLowSpeedOnly fwPath optsHighPinRst otherDevice).1).length
      = 2 * max_retries + 1 ∧
    (flash_device envLowSpeedOnly fwPath optsHighPinRst otherDevice).2
      = (true, optsHighPinRst) :=
  C1_amended envLowSpeedOnly fwPath otherDevice optsHighPinRst
    ⟨"CH32V30X", "CH32V30X"⟩ rfl rfl rfl (fun _ => rfl) rfl rfl
    (fun _ => rfl) (fun _ => rfl) (fun _ => rfl) (fun _ => rfl)

/-- C2 counterexample: at this concrete VSD session with the flash tool
failing on every attempt, every flash invocation does use the fixed
`--speed low --verify` command, but the invocation is issued
`3 × max_retries = 9` times in total, not at most `max_retries = 3` as
the claim states: the speed loop still iterates all three speed slots
for the fixed-speed chip. -/
theorem C2_counterexample :
    flashInvs (flash_device envFlashAlwaysFails fwPath optsHighPowerOff vsdDevice).1 =
      List.replicate 9
        (.invoke (.tokens (flash_cmd_verify "CH32V003" "/abs/fw.bin")) false) ∧
    (flashInvs (flash_device envFlashAlwaysFails fwPath optsHighPowerOff vsdDevice).1).length
      = 3 * max_retries ∧
    ¬ (flashInvs (flash_device envFlashAlwaysFails fwPath optsHighPowerOff vsdDevice).1).length
      ≤ max_retries ∧
    (flash_device envFlashAlwaysFails fwPath optsHighPowerOff vsdDevice).2
      = (false, optsHighPowerOff) := by
  decide

/-- C2 amended: for every VSD session (the fixed-speed path; `chip_type`
is always `"CH32V003"`) whose flash invocations all fail, every flash
invocation uses the fixed command `--speed low --verify` — no other speed
token is ever attempted — but the invocation is retried
`3 × max_retries = 9` times in total (`max_retries` per iteration of the
vestigial speed loop), after which the whole operation fails with no
speed escalation. -/
theorem C2_amended (env : Env) (p d : String) (o : WlinkOptions)
    (ci : ChipInfo)
    (hp1 : env.pathExists p = true) (hp2 : env.pathIsFile p = true)
    (hp3 : env.pathReadable p = true)
    (hpa : env.pathExists (env.abspath p) = true)
    (hdet : ∀ i, chipMatch (env.detectOutput i) = some ci)
    (hvsd : strContains "VSD Squadran Mini" d = true)
    (her : ∀ n, env.run n (erase_cmd_vsd "CH32V003") = true)
    (hreset1 : env.run 1 ["wlink", "reset"] = true)
    (hflash : ∀ n, env.run n (flash_cmd_verify "CH32V003" (env.abspath p)) = false) :
    flashInvs (flash_device env p o d).1 =
      List.replicate (3 * max_retries)
        (.invoke (.tokens (flash_cmd_verify "CH32V003" (env.abspath p))) false) ∧
    (flash_device env p o d).2 = (false, o) ∧
    (flash_body_run env p o d).2.2 = .error .flashExhausted := by
  have ht := vsd_allfail_trace env p d o ci hp1 hp2 hp3 hpa hdet hvsd her
    hreset1 hflash
  have hfd := flash_device_of_error env p o d _ _ _ ht
  rw [hfd, ht]
  refine ⟨?_, rfl, rfl⟩
  simp [flashInvs, Event.isFlashInvoke, flash_cmd_verify, erase_cmd_vsd,
        max_retries, List.replicate]

/-- C2 amended witness: the nine identical fixed-speed attempts at a
concrete session. -/
theorem C2_amended_witness :
    flashInvs (flash_device envFlashAlwaysFails fwPath optsHighPowerOff vsdDevice).1 =
      List.replicate (3 * max_retries)
        (.invoke (.tokens (flash_cmd_verify "CH32V003"
          (envFlashAlwaysFails.abspath fwPath))) false) ∧
    (flash_device envFlashAlwaysFails fwPath optsHighPowerOff vsdDevice).2
      = (false, optsHighPowerOff) ∧
    (flash_body_run envFlashAlwaysFails fwPath optsHighPowerOff vsdDevice).2.2
      = .error .flashExhausted :=
  C2_amended envFlashAlwaysFails fwPath vsdDevice optsHighPowerOff
    ⟨"CH32V003", "CH32V003"⟩ rfl rfl rfl rfl (fun _ => rfl) rfl
    (fun _ => rfl) rfl (fun _ => rfl)

/-- C4 counterexample: at this concrete VSD session the firmware file is
validated again inside the retry loop — after external invocations have
begun, the trace contains `3 × max_retries = 9` further existence checks
of the (absolute) firmware path, one before every flash attempt, and 13
validation-check events in total rather than a single up-front
validation; so validation is not performed exactly once before any
external attempt. -/
theorem C4_counterexample :
    checksAfterFirstInvoke
        (flash_device envFlashAlwaysFails fwPath optsHighPowerOff vsdDevice).1 =
      List.replicate 9 (.checkExists "/abs/fw.bin" true) ∧
    ((flash_device envFlashAlwaysFails fwPath optsHighPowerOff vsdDevice).1.filter
        Event.isCheck).length = 13 ∧
    ¬ checksAfterFirstInvoke
        (flash_device envFlashAlwaysFails fwPath optsHighPowerOff vsdDevice).1 = [] := by
  decide

/-- C4 amended: in every session the existence / regular-file /
readability validation of `check_firmware_file` (no extension check is
performed inside `flash_device`) happens before any external invocation —
the first four trace events are validation checks — but in the VSD branch
the existence of the absolute firmware path is additionally re-checked
inside the retry loop before every flash attempt: with all flash attempts
failing, `3 × max_retries` further existence checks occur after external
invocations have begun. -/
theorem C4_amended (env : Env) (p d : String) (o : WlinkOptions)
    (ci : ChipInfo)
    (hp1 : env.pathExists p = true) (hp2 : env.pathIsFile p = true)
    (hp3 : env.pathReadable p = true)
    (hpa : env.pathExists (env.abspath p) = true)
    (hdet : ∀ i, chipMatch (env.detectOutput i) = some ci)
    (hvsd : strContains "VSD Squadran Mini" d = true)
    (her : ∀ n, env.run n (erase_cmd_vsd "CH32V003") = true)
    (hreset1 : env.run 1 ["wlink", "reset"] = true)
    (hflash : ∀ n, env.run n (flash_cmd_verify "CH32V003" (env.abspath p)) = false) :
    (flash_device env p o d).1.take 4 =
      [.checkExists p true, .checkExists p true, .checkIsFile p true,
       .checkReadable p true] ∧
    checksAfterFirstInvoke (flash_device env p o d).1 =
      List.replicate (3 * max_retries) (.checkExists (env.abspath p) true) := by
  have ht := vsd_allfail_trace env p d o ci hp1 hp2 hp3 hpa hdet hvsd her
    hreset1 hflash
  have hfd := flash_device_of_error env p o d _ _ _ ht
  rw [hfd]
  constructor
  · rfl
  · simp [checksAfterFirstInvoke, Event.isInvoke, Event.isCheck, max_retries,
          List.replicate, List.dropWhile]

/-- C4 amended witness: the re-validation pattern at a concrete
session. -/
theorem C4_amended_witness :
    (flash_device envFlashAlwaysFails fwPath optsHighPowerOff vsdDevice).1.take 4 =
      [.checkExists fwPath true, .checkExists fwPath true,
       .checkIsFile fwPath true, .checkReadable fwPath true] ∧
    checksAfterFirstInvoke
        (flash_device envFlashAlwaysFails fwPath optsHighPowerOff vsdDevice).1 =
      List.replicate (3 * max_retries)
        (.checkExists (envFlashAlwaysFails.abspath fwPath) true) :=
  C4_amended envFlashAlwaysFails fwPath vsdDevice optsHighPowerOff
    ⟨"CH32V003", "CH32V003"⟩ rfl rfl rfl rfl (fun _ => rfl) rfl
    (fun _ => rfl) rfl (fun _ => rfl)

/-- C5 counterexample: a failed device reset can end the session: at this
concrete VSD session (the code consults no per-profile settle-delay
attribute) erase succeeds, the post-erase `reset_device` returns false,
and `flash_device` fails with the reset error having issued zero flash
invocations — contradicting the claim that a reset failure is a warning
only, never fails the session, and flashing still proceeds. -/
theorem C5_counterexample :
    Event.invoke (.tokens ["wlink", "reset"]) false
      ∈ (flash_device envResetFails fwPath optsHighPowerOff vsdDevice).1 ∧
    flashInvs (flash_device envResetFails fwPath optsHighPowerOff vsdDevice).1 = [] ∧
    (flash_device envResetFails fwPath optsHighPowerOff vsdDevice).2
      = (false, optsHighPowerOff) ∧
    (flash_body_run envResetFails fwPath optsHighPowerOff vsdDevice).2.2
      = .error .resetFailed :=
  ⟨by decide, by decide, by decide, rfl⟩

/-- C5 amended: the reset-failure policy is positional, not a profile
attribute: in a VSD session with erase succeeding and all flash attempts
failing, (a) if the single post-erase reset succeeds, the results of the
later pre-retry resets are never consulted — flashing proceeds through
all `3 × max_retries` attempts and the session outcome is the flash
exhaustion, whatever those resets return (they are unconstrained here) —
while (b) if the post-erase reset fails, the session aborts with the
reset error before any flash invocation. -/
theorem C5_amended (env : Env) (p d : String) (o : WlinkOptions)
    (ci : ChipInfo)
    (hp1 : env.pathExists p = true) (hp2 : env.pathIsFile p = true)
    (hp3 : env.pathReadable p = true)
    (hpa : env.pathExists (env.abspath p) = true)
    (hdet : ∀ i, chipMatch (env.detectOutput i) = some ci)
    (hvsd : strContains "VSD Squadran Mini" d = true)
    (her : ∀ n, env.run n (erase_cmd_vsd "CH32V003") = true)
    (hflash : ∀ n, env.run n (flash_cmd_verify "CH32V003" (env.abspath p)) = false) :
    (env.run 1 ["wlink", "reset"] = true →
      (flashInvs (flash_device env p o d).1).length = 3 * max_retries ∧
      (flash_device env p o d).2 = (false, o) ∧
      (flash_body_run env p o d).2.2 = .error .flashExhausted) ∧
    (env.run 1 ["wlink", "reset"] = false →
      flashInvs (flash_device env p o d).1 = [] ∧
      (flash_device env p o d).2 = (false, o) ∧
      (flash_body_run env p o d).2.2 = .error .resetFailed) := by
  constructor
  · intro hr
    have ht := vsd_allfail_trace env p d o ci hp1 hp2 hp3 hpa hdet hvsd her
      hr hflash
    have hfd := flash_device_of_error env p o d _ _ _ ht
    rw [hfd, ht]
    refine ⟨?_, rfl, rfl⟩
    simp [flashInvs, Event.isFlashInvoke, flash_cmd_verify, erase_cmd_vsd,
          max_retries]
  · intro hr
    have ht := vsd_resetfail_trace env p d o ci hp1 hp2 hp3 hdet hvsd her hr
    have hfd := flash_device_of_error env p o d _ _ _ ht
    rw [hfd, ht]
    refine ⟨?_, rfl, rfl⟩
    simp [flashInvs, Event.isFlashInvoke, erase_cmd_vsd]

/-- C5 amended witness: at a concrete session in which every pre-retry
reset fails (only the post-erase reset succeeds), all nine flash attempts
are still issued and the outcome is the flash exhaustion — failed
pre-retry resets neither stop flashing nor change the result. -/
theorem C5_amended_witness :
    (flashInvs (flash_device envFlashAlwaysFails fwPath optsHighPowerOff vsdDevice).1).length
      = 3 * max_retries ∧
    (flash_device envFlashAlwaysFails fwPath optsHighPowerOff vsdDevice).2
      = (false, optsHighPowerOff) ∧
    (flash_body_run envFlashAlwaysFails fwPath optsHighPowerOff vsdDevice).2.2
      = .error .flashExhausted :=
  (C5_amended envFlashAlwaysFails fwPath vsdDevice optsHighPowerOff
    ⟨"CH32V003", "CH32V003"⟩ rfl rfl rfl rfl (fun _ => rfl) rfl
    (fun _ => rfl) (fun _ => rfl)).1 rfl

/-- C6 counterexample: at this concrete non-VSD session the configured
erase method is `pin-rst`, yet the erase invocation issued by
`flash_device` carries the hard-coded method token `default`: the method
token does not equal the session's configured erase method. -/
theorem C6_counterexample :
    eraseInvs (flash_device envLowSpeedOnly fwPath optsHighPinRst otherDevice).1 =
      [.invoke (.tokens ["wlink", "erase", "--method", "default",
        "--chip", "CH32V30X"]) true] ∧
    eraseMethodStr optsHighPinRst.erase_method = "pin-rst" ∧
    ¬ (Event.invoke (.tokens ["wlink", "erase", "--method", "default",
        "--chip", "CH32V30X"]) true).eraseMethodToken
      = some (eraseMethodStr optsHighPinRst.erase_method) := by
  decide

/-- C6 amended: the method token of every erase invocation issued by
`flash_device` is hard-coded per branch — `power-off` in the VSD branch
and `default` in the non-VSD branch — regardless of the erase method in
the configured options; it coincides with the configured method only when
that method happens to equal the hard-coded one. -/
theorem C6_amended (env : Env) (p : String) (o : WlinkOptions) (d : String)
    (e : Event) (m : String)
    (he : e ∈ (flash_device env p o d).1)
    (hm : e.eraseMethodToken = some m) :
    m = (if strContains "VSD Squadran Mini" d then "power-off" else "default") := by
  rw [flash_device_trace_eq] at he
  by_cases hd : strContains "VSD Squadran Mini" d = true
  · rw [if_pos hd]
    have hP := flash_body_events_vsd env p o d
      (P := fun ev => ∀ m', ev.eraseMethodToken = some m' → m' = "power-off") hd
      (fun q b m' h => by simp [Event.eraseMethodToken] at h)
      (fun q b m' h => by simp [Event.eraseMethodToken] at h)
      (fun q b m' h => by simp [Event.eraseMethodToken] at h)
      (fun n m' h => by simp [Event.eraseMethodToken] at h)
      (fun m' h => by simp [Event.eraseMethodToken] at h)
      (fun b m' h => by
        simp [Event.eraseMethodToken, erase_cmd_vsd] at h
        exact h.symm)
      (fun b m' h => by simp [Event.eraseMethodToken] at h)
      (fun b m' h => by simp [Event.eraseMethodToken, flash_cmd_verify] at h)
      (fun spd b m' h => by simp [Event.eraseMethodToken, flash_cmd_vsd] at h)
      ⟨0, 0⟩ e he
    exact hP m hm
  · have hd' : strContains "VSD Squadran Mini" d = false := by simpa using hd
    rw [if_neg hd]
    have hP := flash_body_events_other env p o d
      (P := fun ev => ∀ m', ev.eraseMethodToken = some m' → m' = "default") hd'
      (fun q b m' h => by simp [Event.eraseMethodToken] at h)
      (fun q b m' h => by simp [Event.eraseMethodToken] at h)
      (fun q b m' h => by simp [Event.eraseMethodToken] at h)
      (fun n m' h => by simp [Event.eraseMethodToken] at h)
      (fun m' h => by simp [Event.eraseMethodToken] at h)
      (fun chip b m' h => by
        simp [Event.eraseMethodToken, erase_cmd_other] at h
        exact h.symm)
      (fun chip spd b m' h => by simp [Event.eraseMethodToken, flash_cmd_other] at h)
      ⟨0, 0⟩ e he
    exact hP m hm

/-- C6 amended witness: the erase invocation actually issued in a
concrete non-VSD session carries the hard-coded `default` token. -/
theorem C6_amended_witness :
    ("default" : String) =
      (if strContains "VSD Squadran Mini" otherDevice then "power-off"
       else "default") :=
  C6_amended envLowSpeedOnly fwPath optsHighPinRst otherDevice
    (.invoke (.tokens (erase_cmd_other "CH32V30X")) true) "default"
    (by decide) rfl

/-- C7 counterexample: not every external invocation passes a discrete
token list: at this concrete session the trace contains the two chip
detection probes, each handing the raw command string
`wlink status -v` to the shell (`subprocess.run(..., shell=True)`). -/
theorem C7_counterexample :
    (flash_device envLowSpeedOnly fwPath optsHighPinRst otherDevice).1.filter
        (fun e => match e with
          | .invoke (.shellStr _) _ => true
          | _ => false) =
      [.invoke (.shellStr "wlink status -v") true,
       .invoke (.shellStr "wlink status -v") true] := by
  decide

/-- C7 amended: within a flash session, every external invocation issued
through `run_command` or `reset_device` passes its arguments as a
discrete token list without shell interpolation; the only exception is
the chip-detection status probe, which hands the single command string
`wlink status -v` to the shell. -/
theorem C7_amended (env : Env) (p : String) (o : WlinkOptions) (d : String)
    (e : Event) (he : e ∈ (flash_device env p o d).1)
    (hi : e.isInvoke = true) :
    (∃ c b, e = .invoke (.tokens c) b) ∨
    e = .invoke (.shellStr "wlink status -v") true := by
  rw [flash_device_trace_eq] at he
  by_cases hd : strContains "VSD Squadran Mini" d = true
  · exact flash_body_events_vsd env p o d
      (P := fun ev => ev.isInvoke = true →
        (∃ c b, ev = .invoke (.tokens c) b) ∨
        ev = .invoke (.shellStr "wlink status -v") true) hd
      (fun q b h => by simp [Event.isInvoke] at h)
      (fun q b h => by simp [Event.isInvoke] at h)
      (fun q b h => by simp [Event.isInvoke] at h)
      (fun n h => by simp [Event.isInvoke] at h)
      (fun _ => Or.inr rfl)
      (fun b _ => Or.inl ⟨_, b, rfl⟩)
      (fun b _ => Or.inl ⟨_, b, rfl⟩)
      (fun b _ => Or.inl ⟨_, b, rfl⟩)
      (fun spd b _ => Or.inl ⟨_, b, rfl⟩)
      ⟨0, 0⟩ e he hi
  · have hd' : strContains "VSD Squadran Mini" d = false := by simpa using hd
    exact flash_body_events_other env p o d
      (P := fun ev => ev.isInvoke = true →
        (∃ c b, ev = .invoke (.tokens c) b) ∨
        ev = .invoke (.shellStr "wlink status -v") true) hd'
      (fun q b h => by simp [Event.isInvoke] at h)
      (fun q b h => by simp [Event.isInvoke] at h)
      (fun q b h => by simp [Event.isInvoke] at h)
      (fun n h => by simp [Event.isInvoke] at h)
      (fun _ => Or.inr rfl)
      (fun chip b _ => Or.inl ⟨_, b, rfl⟩)
      (fun chip spd b _ => Or.inl ⟨_, b, rfl⟩)
      ⟨0, 0⟩ e he hi

/-- C7 amended witness: a concrete invocation from a concrete session
(the erase command) is indeed a token-list invocation. -/
theorem C7_amended_witness :
    (∃ c b, Event.invoke (.tokens (erase_cmd_other "CH32V30X")) true
      = .invoke (.tokens c) b) ∨
    Event.invoke (.tokens (erase_cmd_other "CH32V30X")) true
      = .invoke (.shellStr "wlink status -v") true :=
  C7_amended envLowSpeedOnly fwPath optsHighPinRst otherDevice
    (.invoke (.tokens (erase_cmd_other "CH32V30X")) true) (by decide) rfl
